import Mathlib

/-!
Verification of the wxipad WeChat platform adapter (astrbot_platform_wxipad).

This file gives a shallow embedding of the repository's core pieces:

* `client.py` — the WebSocket transport loop (`start_polling` + `keepalive`),
  the login-status poll (`check_login_status`) and the outbound HTTP payload
  builders (`post_text`, `post_voice`);
* `wechat_adapter.py` — `terminate` and the message normalizer
  `convert_message`;
* `wechat_event.py` — the `Record` (voice) branch of `send_with_client`.

Python strings are modelled as Lean `String`s; the Python `str.split`,
`str.split(sep, 1)` and the `in` containment test are re-implemented over
`List Char` with the same semantics so that their interaction can be proved.
Exceptions are modelled with `Except String`; `try/except` wrappers map every
error to the fallback value exactly where the source does.
-/

namespace WxIpad

/-! ## Python string primitives -/

/-- Python substring containment `p in s`, over character lists:
true iff `p` occurs as a contiguous infix of the list. -/
def hasSub (p : List Char) : List Char → Bool
  | [] => p.isPrefixOf []
  | c :: cs => p.isPrefixOf (c :: cs) || hasSub p cs

/-- Worker for Python `s.split(sep)` (split on every occurrence of `sep`,
keeping empty fields). `acc` holds the reversed characters of the field
currently being read; `skip` counts characters of a just-matched separator
still to be consumed (kept as an argument so the recursion is structural on
the input list). -/
def pySplitGo (sep : List Char) : Nat → List Char → List Char → List (List Char)
  | _, [], acc => [acc.reverse]
  | skip + 1, _ :: cs, acc => pySplitGo sep skip cs acc
  | 0, c :: cs, acc =>
    if sep.isPrefixOf (c :: cs) then
      acc.reverse :: pySplitGo sep (sep.length - 1) cs []
    else
      pySplitGo sep 0 cs (c :: acc)

/-- Worker for Python `s.split(sep, 1)` (split at the first occurrence only). -/
def pySplit1Go (sep : List Char) : List Char → List Char → List (List Char)
  | [], acc => [acc.reverse]
  | c :: cs, acc =>
    if sep.isPrefixOf (c :: cs) then
      [acc.reverse, List.drop (sep.length - 1) cs]
    else
      pySplit1Go sep cs (c :: acc)

/-- Python `s.split(sep)`. -/
def pysplit (s sep : String) : List String :=
  (pySplitGo sep.data 0 s.data []).map String.mk

/-- Python `s.split(sep, 1)`. -/
def pysplit1 (s sep : String) : List String :=
  (pySplit1Go sep.data s.data []).map String.mk

/-- Python `p in s` for strings. -/
def pyin (p s : String) : Bool :=
  hasSub p.data s.data

/-- Python `s.lower()` (characterwise). -/
def pyLower (s : String) : String :=
  String.mk (s.data.map Char.toLower)

/-- Python `s.strip()`: remove leading and trailing whitespace. -/
def pyStrip (s : String) : String :=
  String.mk
    (((s.data.dropWhile Char.isWhitespace).reverse.dropWhile
      Char.isWhitespace).reverse)

/-! ## `client.py`: the transport loop (`start_polling` + `keepalive`)

`start_polling` is an outer `while not shutdown` reconnect loop; each
successful `websockets.connect` enters an inner read loop (30s receive
timeout, only `asyncio.TimeoutError` is caught) and spawns the `keepalive`
heartbeat task (a ping failure merely `break`s out of the keepalive loop).
Any other exception escaping the inner loop cancels the keepalive task,
closes the connection (the `async with` block) and reaches the outer
`except`, which sleeps 5 seconds when shutdown was not requested and then
reconnects.  We model this control flow as a transition system driven by
environment events. -/

/-- Position of control inside `start_polling`. -/
inductive PollPhase
  /-- at the top of the outer `while not shutdown` reconnect loop -/
  | checkLoop
  /-- inside the `async with websockets.connect(...)` block, reading -/
  | connected
  /-- in the outer `except` handler (log, optional 5s sleep) -/
  | backoff
  /-- `start_polling` has returned -/
  | done
deriving DecidableEq

/-- Observable state of the transport: the cooperative shutdown flag
(`shutdown_event`), the control position, the number of currently open
stream connections, and whether the keepalive (heartbeat) task is running. -/
structure PollState where
  shutdown : Bool
  phase : PollPhase
  openConns : Nat
  hbAlive : Bool
deriving DecidableEq

/-- Environment events driving `start_polling` and `keepalive`. -/
inductive PollEvent
  /-- `shutdown_event.set()` (from `terminate`) -/
  | setShutdown
  /-- `websockets.connect` succeeds (keepalive task is created) -/
  | connectOk
  /-- `websockets.connect` raises -/
  | connectFail
  /-- `asyncio.wait_for(websocket.recv(), timeout=30)` raises `TimeoutError` -/
  | recvTimeout
  /-- a frame is received; `parseOk` records whether `json.loads` succeeds -/
  | recvFrame (parseOk : Bool)
  /-- `websocket.recv()` raises (connection-level error) -/
  | recvError
  /-- `websocket.ping()` raises inside `keepalive` -/
  | hbPingFail
  /-- a loop boundary observes the shutdown flag -/
  | loopCheck
  /-- the 5-second `asyncio.sleep(5)` in the outer `except` completes -/
  | backoffDone

/-- One step of the transport transition system, translated from
`ipad855Client.start_polling` and `ipad855Client.keepalive`.  Events that are
not enabled in the current state leave the state unchanged. -/
def pollStep (s : PollState) (e : PollEvent) : PollState :=
  match e with
  | .setShutdown => { s with shutdown := true }
  | .connectOk =>
    if s.phase = .checkLoop ∧ s.shutdown = false then
      { s with phase := .connected, openConns := s.openConns + 1, hbAlive := true }
    else s
  | .connectFail =>
    if s.phase = .checkLoop ∧ s.shutdown = false then
      { s with phase := .backoff }
    else s
  | .recvTimeout =>
    -- `except asyncio.TimeoutError: continue` — the read loop just waits again
    s
  | .recvFrame parseOk =>
    if s.phase = .connected ∧ s.shutdown = false ∧ parseOk = false then
      -- `json.loads` raises and only `TimeoutError` is caught: the exception
      -- cancels the keepalive task (`finally`), closes the connection (end of
      -- the `async with` block) and lands in the outer `except` handler
      { s with phase := .backoff, openConns := s.openConns - 1, hbAlive := false }
    else
      -- a parsed frame is dispatched to `on_message_received`; loop continues
      s
  | .recvError =>
    if s.phase = .connected ∧ s.shutdown = false then
      { s with phase := .backoff, openConns := s.openConns - 1, hbAlive := false }
    else s
  | .hbPingFail =>
    if s.phase = .connected ∧ s.hbAlive = true then
      -- `except Exception: logger.warning(...); break` — only the keepalive
      -- loop ends; the connection and the read loop are untouched
      { s with hbAlive := false }
    else s
  | .loopCheck =>
    if s.shutdown = true then
      match s.phase with
      | .connected =>
        -- the inner `while not shutdown` exits; `finally` cancels keepalive
        -- and the `async with` closes the connection; the outer `while`
        -- condition is false, so `start_polling` returns
        { s with phase := .done, openConns := s.openConns - 1, hbAlive := false }
      | .checkLoop => { s with phase := .done }
      | _ => s
    else s
  | .backoffDone =>
    if s.phase = .backoff then { s with phase := .checkLoop } else s

/-- The initial state of `start_polling`. -/
def pollInit : PollState :=
  { shutdown := false, phase := .checkLoop, openConns := 0, hbAlive := false }

/-- Run the transport transition system over a list of events. -/
def pollRun (s : PollState) (es : List PollEvent) : PollState :=
  es.foldl pollStep s

/-- The connection-counting invariant: a connection is open exactly while
control is inside the `async with` block. -/
def connInv (s : PollState) : Prop :=
  s.openConns = if s.phase = PollPhase.connected then 1 else 0

/-! ## `wechat_adapter.py`: `terminate` -/

/-- The part of the adapter state that `WechatPlatformAdapter.terminate`
touches: the client's `shutdown_event` flag and the `self.ws` handle. -/
structure AdapterState where
  clientShutdown : Bool
  ws : Option Nat
deriving DecidableEq

/-- `WechatPlatformAdapter.terminate`: sets `shutdown_event`, closes `self.ws`
when it is set (errors from `close()` are caught and logged) and clears it. -/
def terminate (_a : AdapterState) : AdapterState :=
  { clientShutdown := true, ws := none }

/-! ## `client.py`: `check_login_status` -/

/-- The shape of the `/login/CheckLoginStatus` response as the code inspects
it: HTTP status, whether `resp.json()` parsed, the optional `Code` field and
the optional `Data` object with its optional `state` field
(`data.get("state", -1)` defaults to `-1` when the field is missing). -/
structure LoginStatusResp where
  status : Nat
  jsonOk : Bool
  Code : Option Int
  Data : Option (Option Int)
deriving DecidableEq

/-- `ipad855Client.check_login_status`, translated from `client.py`.  The
`online` argument is the value `await self.check_online()` would produce at
the single point where the code calls it (the `Code != 200` branch). -/
def check_login_status (resp : LoginStatusResp) (online : Bool) : Bool :=
  if resp.status ≠ 200 then false
  else if resp.jsonOk = false then false
  else
    match resp.Code with
    | none => false
    | some c =>
      if c ≠ 200 then
        -- scan-status check failed: fall back to the actual online check
        if online then true else false
      else
        match resp.Data with
        | none => false
        | some stateField =>
          let state := stateField.getD (-1)
          if state = 0 then false
          else if state = 1 then false
          else if state = 2 then true
          else false

/-! ## `wechat_event.py`: the voice (`Record`) branch of `send_with_client` -/

/-- The standard base64 alphabet. -/
def b64Alphabet : List Char :=
  "ABCDEFGHIJKLMNOPQRSTUVWXYZabcdefghijklmnopqrstuvwxyz0123456789+/".data

/-- The base64 digit for a 6-bit value. -/
def b64Char (n : Nat) : Char := b64Alphabet.getD n 'A'

/-- `base64.b64encode` over a list of bytes. -/
def base64Encode : List Nat → List Char
  | [] => []
  | [a] => [b64Char (a / 4 % 64), b64Char (a % 4 * 16), '=', '=']
  | [a, b] =>
    [b64Char (a / 4 % 64), b64Char (a % 4 * 16 + b / 16 % 16), b64Char (b % 16 * 4), '=']
  | a :: b :: c :: rest =>
    b64Char (a / 4 % 64) :: b64Char (a % 4 * 16 + b / 16 % 16)
      :: b64Char (b % 16 * 4 + c / 64 % 4) :: b64Char (c % 64) :: base64Encode rest

/-- `base64.b64encode(data).decode()`. -/
def base64Str (bytes : List Nat) : String := String.mk (base64Encode bytes)

/-- The file system visible to `send_with_client`: existing paths with their
byte contents. -/
abbrev FS := List (String × List Nat)

/-- `os.path.exists`. -/
def fsHas (fs : FS) (p : String) : Bool := fs.any fun e => e.1 == p

/-- `open(p, "rb").read()`; `none` models `FileNotFoundError`. -/
def fsRead (fs : FS) (p : String) : Option (List Nat) :=
  (fs.find? fun e => e.1 == p).map Prod.snd

/-- `os.remove`. -/
def fsRemove (fs : FS) (p : String) : FS := fs.filter fun e => e.1 != p

/-- One iteration of the cleanup loop:
`if f and os.path.exists(f): os.remove(f)` (its `except: pass` has nothing to
catch in this model). -/
def osRemoveIfExists (fs : FS) (p : String) : FS :=
  if fsHas fs p then fsRemove fs p else fs

/-- The `finally:` block of the `Record` branch: remove each temp file. -/
def cleanupTemp (fs : FS) (ps : List String) : FS := ps.foldl osRemoveIfExists fs

/-- The basename of a path (the part after the last `/`). -/
def basenameChars (p : String) : List Char :=
  (p.data.reverse.takeWhile fun c => c ≠ '/').reverse

/-- `os.path.splitext(p)[1]`: the extension, including its dot — the suffix
of the basename starting at its last dot, empty when the basename has no dot
or only leading dots. -/
def splitextExt (p : String) : String :=
  let revb := (basenameChars p).reverse
  let revExt := revb.takeWhile fun c => c ≠ '.'
  if revExt.length = revb.length then ""
  else if (revb.drop (revExt.length + 1)).any (fun c => c ≠ '.') then
    String.mk ('.' :: revExt.reverse)
  else ""

/-- The JSON body built by `ipad855Client.post_text` (one `MsgItem`). -/
structure TextPayload where
  ToUserName : String
  TextContent : String
  AtWxIDList : List String
deriving DecidableEq

/-- `ipad855Client.post_text`: the `AtWxIDList` field is
`[*ats.split(",")]`. -/
def post_text (to_wxid content ats : String) : TextPayload :=
  { ToUserName := to_wxid, TextContent := content, AtWxIDList := pysplit ats "," }

/-- The JSON body built by `ipad855Client.post_voice`.  (`VoiceSecond` models
the source's misspelled `"VoiceSecond,"` key.) -/
structure VoicePayload where
  ToUserName : String
  VoiceData : String
  VoiceFormat : Nat
  VoiceSecond : Nat
deriving DecidableEq

/-- `ipad855Client.post_voice`: note that the payload hardcodes
`"VoiceFormat": 1` — the `VoiceFormat` parameter is accepted but never
used. -/
def post_voice (to_wxid voicedata : String) (VoiceFormat : Nat) : VoicePayload :=
  { ToUserName := to_wxid, VoiceData := voicedata, VoiceFormat := 1, VoiceSecond := 0 }

/-- A backend call issued by the `Record` branch of `send_with_client`. -/
inductive Call
  | text (p : TextPayload)
  | voice (p : VoicePayload)
deriving DecidableEq

/-- The `try:` body of the `Record` branch of `WechatEvent.send_with_client`:
dispatch on the lowercased file extension.  `.error` carries `str(e)` of the
exception that the body raises.  Note that the `.wav` branch reads
`silk_path` — a path built from a fresh uuid that the code never creates;
the imported `wav_to_tencent_silk` converter is never invoked. -/
def handleRecordBody (fs : FS) (to_wxid record_path silk_path : String) :
    Except String VoicePayload :=
  let ext := pyLower (splitextExt record_path)
  if ext = ".mp3" then
    match fsRead fs record_path with
    | none => .error ("[Errno 2] No such file or directory: " ++ record_path)
    | some mp3_data =>
      .ok (post_voice to_wxid ("data:audio/mpeg;base64," ++ base64Str mp3_data) 2)
  else if ext = ".wav" then
    match fsRead fs silk_path with
    | none => .error ("[Errno 2] No such file or directory: " ++ silk_path)
    | some silk_data =>
      .ok (post_voice to_wxid ("data:audio/wav;base64," ++ base64Str silk_data) 1)
  else
    .error ("不支持的音频格式: " ++ ext)

/-- The whole `Record` branch: the `try/except/finally` around
`handleRecordBody`.  On success the voice call is issued; on any exception an
error reply is sent as a text message; the `finally:` block removes
`record_path` and `silk_path` in both cases.  Returns the backend calls
issued and the resulting file system. -/
def handleRecord (fs : FS) (to_wxid record_path silk_path : String) :
    List Call × FS :=
  let calls :=
    match handleRecordBody fs to_wxid record_path silk_path with
    | .ok p => [Call.voice p]
    | .error e => [Call.text (post_text to_wxid ("语音处理错误: " ++ e) "")]
  (calls, cleanupTemp fs [record_path, silk_path])

/-! ## `wechat_adapter.py`: `convert_message`

The whole body of `convert_message` is a `try/except` returning `None` on
any exception.  We model the body as `convert_message_try` returning
`Except String (Option CanonicalMsg)` — `.error` carries `str(e)` of an
exception the body raises — and `convert_message` as the catching wrapper. -/

/-- The "mentioned you" marker looked for in the push string. -/
def marker : String := "在群聊中@了你"

/-- The `":\n"` delimiter the backend uses between a group sender id and the
message body inside the content field. -/
def colonNl : String := ":\n"

/-- Python `p in o` where `o` came from `data.get("push_content", {})`:
a missing key yields the empty dict, for which containment is false. -/
def pyinOpt (p : String) (o : Option String) : Bool :=
  match o with
  | none => false
  | some s => pyin p s

/-- The fields of one inbound frame that `convert_message` reads.
`from_user` is `data["from_user_name"]["str"]` (empty when missing),
`content` is `data["content"]["str"]`, `push_content` is `none` when the
key is missing. -/
structure RawFrame where
  from_user : String
  push_content : Option String
  content : String
  msg_id : String
  create_time : Option Nat
deriving DecidableEq

/-- DIRECT (friend) or GROUP message. -/
inductive MsgKind
  | group
  | direct
deriving DecidableEq

/-- The populated `AstrBotMessage` produced by `convert_message`. -/
structure CanonicalMsg where
  kind : MsgKind
  self_id : String
  message_id : String
  timestamp : Nat
  sender_id : String
  nickname : String
  text : String
  message_str : String
  session_id : String
  group_id : Option String
deriving DecidableEq

/-- The three prioritized nickname/text extraction rules of the GROUP branch
(`wechat_adapter.py`, the `if "在群聊中@了你" in push_content / elif ...`
chain).  Rule a: push string contains the mention marker — nickname is the
stripped prefix before the marker and the text is element 1 of the full
split of the raw content on `":\n"` (`raw_content.split(":\n")[1]`, an
`IndexError` when the delimiter is absent).  Rule b: push string contains
`":"` — split it once.  Rule c: raw content contains `":\n"` — split it
once.  When no rule matches, the Python `nickname` variable is unbound and
the later `nickname.strip()` raises `NameError`. -/
def groupNickText (push : Option String) (raw : String) :
    Except String (String × String) :=
  if pyinOpt marker push then
    let nickname := pyStrip ((pysplit (push.getD "") marker).headD "")
    match (pysplit raw colonNl)[1]? with
    | none => .error "IndexError: list index out of range"
    | some t => .ok (nickname, t)
  else if pyinOpt ":" push then
    match pysplit1 (push.getD "") ":" with
    | [n, t] => .ok (pyStrip n, t)
    | _ => .error "ValueError: not enough values to unpack"
  else if pyin colonNl raw then
    match pysplit1 raw colonNl with
    | [n, t] => .ok (pyStrip n, t)
    | _ => .error "ValueError: not enough values to unpack"
  else
    .error "NameError: name nickname is not defined"

/-- The `try:` body of `WechatPlatformAdapter.convert_message`.  `now` is
`int(time.time())`, the fallback timestamp. -/
def convert_message_try (wxid : String) (now : Nat) (d : RawFrame) :
    Except String (Option CanonicalMsg) :=
  let from_user := d.from_user
  let is_group := pyin "@chatroom" from_user
  if is_group then
    match groupNickText d.push_content d.content with
    | .error e => .error e
    | .ok (nickname0, actual_content) =>
      -- the final `nickname = nickname.strip()` common to all three rules
      let nickname := pyStrip nickname0
      .ok (some {
        kind := .group,
        self_id := wxid,
        message_id := d.msg_id,
        timestamp := d.create_time.getD now,
        sender_id := (pysplit d.content colonNl).headD "",
        nickname := nickname,
        text := actual_content,
        message_str := nickname ++ ": " ++ actual_content,
        session_id := from_user,
        group_id := some from_user })
  else
    if from_user = wxid then
      .ok none
    else
      let push_content := d.push_content.getD ""
      let nickname := pyStrip ((pysplit push_content ":").headD "")
      let content := d.content
      .ok (some {
        kind := .direct,
        self_id := wxid,
        message_id := d.msg_id,
        timestamp := d.create_time.getD now,
        sender_id := from_user,
        nickname := nickname,
        text := content,
        message_str := nickname ++ ": " ++ content,
        session_id := from_user,
        group_id := none })

/-- `WechatPlatformAdapter.convert_message`: the `except Exception` wrapper
logs and returns `None` on any failure. -/
def convert_message (wxid : String) (now : Nat) (d : RawFrame) :
    Option CanonicalMsg :=
  match convert_message_try wxid now d with
  | .error _ => none
  | .ok r => r

/-! ## Supporting lemmas -/

theorem pySplit1Go_of_not_hasSub (sep l acc : List Char)
    (h : hasSub sep l = false) : pySplit1Go sep l acc = [acc.reverse ++ l] := by
  induction l generalizing acc with
  | nil => simp [pySplit1Go]
  | cons c cs ih =>
    simp only [hasSub, Bool.or_eq_false_iff] at h
    simp [pySplit1Go, h.1, ih _ h.2]

theorem pySplitGo_of_not_hasSub (sep l acc : List Char)
    (h : hasSub sep l = false) : pySplitGo sep 0 l acc = [acc.reverse ++ l] := by
  induction l generalizing acc with
  | nil => simp [pySplitGo]
  | cons c cs ih =>
    simp only [hasSub, Bool.or_eq_false_iff] at h
    simp [pySplitGo, h.1, ih _ h.2]

theorem pySplit1Go_pair_of_hasSub (sep l : List Char) (hne : sep ≠ [])
    (h : hasSub sep l = true) :
    ∀ acc, ∃ a b, pySplit1Go sep l acc = [a, b] := by
  induction l with
  | nil =>
    intro acc
    cases sep with
    | nil => exact absurd rfl hne
    | cons x xs => simp [hasSub, List.isPrefixOf] at h
  | cons c cs ih =>
    intro acc
    by_cases hp : sep.isPrefixOf (c :: cs)
    · exact ⟨acc.reverse, List.drop (sep.length - 1) cs, by simp [pySplit1Go, hp]⟩
    · have hcs : hasSub sep cs = true := by
        simp only [hasSub, Bool.or_eq_true] at h
        rcases h with h | h
        · exact absurd h hp
        · exact h
      obtain ⟨a, b, hab⟩ := ih hcs (c :: acc)
      exact ⟨a, b, by simp [pySplit1Go, hp, hab]⟩

theorem one_le_length_pySplitGo (sep : List Char) (skip : Nat)
    (l acc : List Char) : 1 ≤ (pySplitGo sep skip l acc).length := by
  induction l generalizing skip acc with
  | nil => cases skip <;> simp [pySplitGo]
  | cons c cs ih =>
    cases skip with
    | zero =>
      by_cases hp : sep.isPrefixOf (c :: cs) <;> simp [pySplitGo, hp]
      · exact ih _ _
    | succ k => simpa [pySplitGo] using ih k acc

theorem two_le_length_pySplitGo (sep l : List Char) (hne : sep ≠ [])
    (h : hasSub sep l = true) :
    ∀ acc, 2 ≤ (pySplitGo sep 0 l acc).length := by
  induction l with
  | nil =>
    intro acc
    cases sep with
    | nil => exact absurd rfl hne
    | cons x xs => simp [hasSub, List.isPrefixOf] at h
  | cons c cs ih =>
    intro acc
    by_cases hp : sep.isPrefixOf (c :: cs)
    · have := one_le_length_pySplitGo sep (sep.length - 1) cs []
      simp only [pySplitGo, hp, if_true, List.length_cons]
      omega
    · have hcs : hasSub sep cs = true := by
        simp only [hasSub, Bool.or_eq_true] at h
        rcases h with h | h
        · exact absurd h hp
        · exact h
      simpa [pySplitGo, hp] using ih hcs (c :: acc)

theorem pysplit_of_not_pyin (s sep : String) (h : pyin sep s = false) :
    pysplit s sep = [s] := by
  unfold pysplit
  rw [pySplitGo_of_not_hasSub sep.data s.data [] h]
  simp

theorem pysplit1_pair_of_pyin (s sep : String) (hne : sep.data ≠ [])
    (h : pyin sep s = true) : ∃ a b, pysplit1 s sep = [a, b] := by
  obtain ⟨a, b, hab⟩ := pySplit1Go_pair_of_hasSub sep.data s.data hne h []
  exact ⟨String.mk a, String.mk b, by simp [pysplit1, hab]⟩

theorem two_le_length_pysplit (s sep : String) (hne : sep.data ≠ [])
    (h : pyin sep s = true) : 2 ≤ (pysplit s sep).length := by
  unfold pysplit
  simpa using two_le_length_pySplitGo sep.data s.data hne h []

theorem pysplit_get1_some (s sep : String) (hne : sep.data ≠ [])
    (h : pyin sep s = true) : ∃ t, (pysplit s sep)[1]? = some t := by
  have h2 := two_le_length_pysplit s sep hne h
  cases hg : (pysplit s sep)[1]? with
  | none =>
    rw [List.getElem?_eq_none_iff] at hg
    omega
  | some t => exact ⟨t, rfl⟩

theorem fsHas_fsRemove_self (fs : FS) (p : String) :
    fsHas (fsRemove fs p) p = false := by
  induction fs with
  | nil => rfl
  | cons e t ih =>
    by_cases h : e.1 = p <;>
      simp_all [fsRemove, fsHas, List.filter_cons, List.any_cons]

theorem fsHas_fsRemove_of_not (fs : FS) (p q : String)
    (h : fsHas fs p = false) : fsHas (fsRemove fs q) p = false := by
  induction fs with
  | nil => rfl
  | cons e t ih =>
    by_cases hq : e.1 = q <;>
      simp_all [fsRemove, fsHas, List.filter_cons, List.any_cons] <;>
      exact fun a b hm _ => h.2 a b hm

theorem fsHas_osRemoveIfExists_self (fs : FS) (p : String) :
    fsHas (osRemoveIfExists fs p) p = false := by
  unfold osRemoveIfExists
  split
  · exact fsHas_fsRemove_self fs p
  · next h => simpa using h

theorem fsHas_osRemoveIfExists_of_not (fs : FS) (p q : String)
    (h : fsHas fs p = false) : fsHas (osRemoveIfExists fs q) p = false := by
  unfold osRemoveIfExists
  split
  · exact fsHas_fsRemove_of_not fs p q h
  · exact h

theorem cleanupTemp_removes (fs : FS) (rp silk : String) :
    fsHas (cleanupTemp fs [rp, silk]) rp = false
      ∧ fsHas (cleanupTemp fs [rp, silk]) silk = false := by
  constructor
  · exact fsHas_osRemoveIfExists_of_not _ rp silk
      (fsHas_osRemoveIfExists_self fs rp)
  · exact fsHas_osRemoveIfExists_self _ silk

theorem connInv_init : connInv pollInit := rfl

theorem connInv_step (s : PollState) (e : PollEvent) (h : connInv s) :
    connInv (pollStep s e) := by
  unfold connInv at h ⊢
  cases e <;> simp only [pollStep]
  case setShutdown => simpa using h
  case connectOk =>
    split
    · next hc => simp [hc.1] at h; simp [h, hc.1]
    · exact h
  case connectFail =>
    split
    · next hc => simp [hc.1] at h; simp [h, hc.1]
    · exact h
  case recvTimeout => exact h
  case recvFrame =>
    split
    · next hc => simp [hc.1] at h; simp [h, hc.1]
    · exact h
  case recvError =>
    split
    · next hc => simp [hc.1] at h; simp [h, hc.1]
    · exact h
  case hbPingFail =>
    split
    · next hc => simp [hc.1] at h ⊢; exact h
    · exact h
  case loopCheck =>
    split
    · split
      · next hp => simp [hp] at h; simp [h, hp]
      · next hp => simp [hp] at h ⊢; simpa [hp] using h
      · exact h
    · exact h
  case backoffDone =>
    split
    · next hp => simp [hp] at h; simp [h, hp]
    · exact h

theorem connInv_run (es : List PollEvent) (s : PollState) (h : connInv s) :
    connInv (pollRun s es) := by
  induction es generalizing s with
  | nil => exact h
  | cons e es ih => exact ih (pollStep s e) (connInv_step s e h)

/-! ## Claim theorems -/

/-- C1 counterexample.  The claim states that a frame whose payload fails
structured parsing is logged, dropped, and the read loop continues on the
same connection without entering the backoff/reconnect path.  On the code,
from the freshly connected state (`pollStep pollInit .connectOk`), receiving
a malformed frame puts the transport in the `backoff` phase with the
connection closed: only `asyncio.TimeoutError` is caught inside the read
loop, so the `json.loads` failure escapes, tears the connection down and
reaches the 5-second backoff handler. -/
theorem c1_parse_failure_counterexample :
    (pollStep (pollStep pollInit .connectOk) (.recvFrame false)).phase
        = PollPhase.backoff
      ∧ (pollStep (pollStep pollInit .connectOk) (.recvFrame false)).openConns = 0
      ∧ PollPhase.backoff ≠ PollPhase.connected := by
  refine ⟨by decide, by decide, by decide⟩

/-- C1 amended: on an open connection (shutdown not requested), a frame whose
payload fails `json.loads` makes the exception escape the read loop — the
connection is torn down and the 5-second backoff/reconnect path is entered;
only a receive timeout (`recvTimeout`) and a successfully parsed frame leave
the read loop waiting on the same connection. -/
theorem c1_parse_failure_amended (s : PollState)
    (hp : s.phase = PollPhase.connected) (hs : s.shutdown = false) :
    (pollStep s (.recvFrame false)).phase = PollPhase.backoff
      ∧ (pollStep s (.recvFrame false)).openConns = s.openConns - 1
      ∧ pollStep s (.recvFrame true) = s
      ∧ pollStep s .recvTimeout = s := by
  refine ⟨?_, ?_, ?_, rfl⟩ <;> simp [pollStep, hp, hs]

/-- Witness for C1's amended theorem at the concrete connected state. -/
theorem c1_parse_failure_amended_witness :
    (pollStep (pollStep pollInit .connectOk) (.recvFrame false)).phase
        = PollPhase.backoff
      ∧ (pollStep (pollStep pollInit .connectOk) (.recvFrame false)).openConns
        = (pollStep pollInit .connectOk).openConns - 1 := by
  have h := c1_parse_failure_amended (pollStep pollInit .connectOk)
    (by decide) (by decide)
  exact ⟨h.1, h.2.1⟩

/-- C2 counterexample.  The claim states that a failed heartbeat probe tears
the connection down (both activities end), followed by backoff and reconnect.
On the code, from the freshly connected state, a heartbeat ping failure
merely `break`s out of the `keepalive` loop: the transport stays in the
`connected` phase with the connection still open and the read loop running —
no teardown and no backoff happen. -/
theorem c2_heartbeat_counterexample :
    (pollStep (pollStep pollInit .connectOk) .hbPingFail).phase
        = PollPhase.connected
      ∧ (pollStep (pollStep pollInit .connectOk) .hbPingFail).openConns = 1
      ∧ (pollStep (pollStep pollInit .connectOk) .hbPingFail).hbAlive = false := by
  refine ⟨by decide, by decide, by decide⟩

/-- C2 amended: a failed heartbeat probe is logged and ends only the
heartbeat activity (`break` in `keepalive`); the stream connection and the
read loop continue unchanged.  Teardown, the 5-second backoff and the
reconnect attempt happen only when an exception escapes the read path
(connect failure, receive error or parse failure). -/
theorem c2_heartbeat_amended (s : PollState)
    (hp : s.phase = PollPhase.connected) (hb : s.hbAlive = true) :
    pollStep s .hbPingFail = { s with hbAlive := false }
      ∧ (pollStep s .hbPingFail).phase = PollPhase.connected
      ∧ (pollStep s .hbPingFail).openConns = s.openConns := by
  refine ⟨?_, ?_, ?_⟩ <;> simp [pollStep, hp, hb]

/-- Witness for C2's amended theorem at the concrete connected state. -/
theorem c2_heartbeat_amended_witness :
    (pollStep (pollStep pollInit .connectOk) .hbPingFail).phase
        = PollPhase.connected
      ∧ (pollStep (pollStep pollInit .connectOk) .hbPingFail).openConns
        = (pollStep pollInit .connectOk).openConns := by
  have h := c2_heartbeat_amended (pollStep pollInit .connectOk)
    (by decide) (by decide)
  exact ⟨h.2.1, h.2.2⟩

/-- C9: `terminate` is idempotent — it sets the cooperative shutdown flag and
clears the WebSocket handle, and calling it again changes nothing — and the
reconnect loop never holds two open stream connections: every state reachable
by `start_polling` from its initial state has at most one open connection. -/
theorem c9_shutdown_idempotent_single_connection :
    (∀ a : AdapterState,
        terminate (terminate a) = terminate a
          ∧ (terminate a).clientShutdown = true)
      ∧ ∀ es : List PollEvent, (pollRun pollInit es).openConns ≤ 1 := by
  refine ⟨fun a => ⟨rfl, rfl⟩, fun es => ?_⟩
  have h := connInv_run es pollInit connInv_init
  unfold connInv at h
  rw [h]
  split <;> omega

/-- C5 counterexample.  The claim states that any status code other than
0/1/2 triggers a fallback re-check against `checkOnline()` before reporting
false (so the result is true when the fallback reports online).  On the code,
a well-formed response with `Code = 200` and `Data.state = 3` returns false
directly — `check_online` is never consulted, even when it would report
online (`online = true` here). -/
theorem c5_unknown_state_counterexample :
    check_login_status
        { status := 200, jsonOk := true, Code := some 200, Data := some (some 3) }
        true = false := by
  decide

/-- C5 amended: `check_login_status` maps states 0, 1, 2 to false, false,
true; an explicit failure code in the response (`Code ≠ 200`) — and only
that case — triggers the fallback re-check against `checkOnline()`, whose
result is then returned; any other state value yields false directly with no
fallback. -/
theorem c5_poll_status_amended (resp : LoginStatusResp) (online : Bool)
    (hs : resp.status = 200) (hj : resp.jsonOk = true) :
    (∀ c : Int, resp.Code = some c → c ≠ 200 →
        check_login_status resp online = online)
      ∧ (resp.Code = some 200 → ∀ stateField : Option Int,
          resp.Data = some stateField →
            (stateField.getD (-1) = 0 → check_login_status resp online = false)
              ∧ (stateField.getD (-1) = 1 → check_login_status resp online = false)
              ∧ (stateField.getD (-1) = 2 → check_login_status resp online = true)
              ∧ (stateField.getD (-1) ≠ 0 → stateField.getD (-1) ≠ 1 →
                  stateField.getD (-1) ≠ 2 →
                  check_login_status resp online = false)) := by
  constructor
  · intro c hc hne
    cases online <;> simp [check_login_status, hs, hj, hc, hne]
  · intro hc stateField hd
    refine ⟨?_, ?_, ?_, ?_⟩ <;> intros <;>
      simp_all [check_login_status, hs, hj, hc, hd]

/-- Witness for C5's amended theorem: state 2 with a well-formed response
reports true, and a failed scan-status check (`Code = 0`) falls back to the
online check (which reports true here). -/
theorem c5_poll_status_amended_witness :
    check_login_status
        { status := 200, jsonOk := true, Code := some 200, Data := some (some 2) }
        false = true
      ∧ check_login_status
        { status := 200, jsonOk := true, Code := some 0, Data := none }
        true = true := by
  constructor
  · exact ((c5_poll_status_amended
      { status := 200, jsonOk := true, Code := some 200, Data := some (some 2) }
      false rfl rfl).2 rfl (some 2) rfl).2.2.1 (by decide)
  · exact (c5_poll_status_amended
      { status := 200, jsonOk := true, Code := some 0, Data := none }
      true rfl rfl).1 0 rfl (by decide)

/-- C3 (code bug).  The claim says the format code transmitted in the
backend voice call equals the code selected for the container (2 for MP3,
1 for WAV after silk conversion).  The code contradicts its own interface:
`post_voice` accepts a `VoiceFormat` parameter (documented `1 = AMR/silk,
2 = MP3`) that the `.mp3` branch passes as `2`, but the payload hardcodes
`"VoiceFormat": 1`, so an MP3 part is transmitted with format code 1 ≠ 2.
Moreover the `.wav` branch never invokes the imported `wav_to_tencent_silk`
converter: it reads the fresh (nonexistent) `silk_path`, so a WAV part
raises `FileNotFoundError` and produces an error reply instead of a voice
call. -/
theorem c3_voice_format_code_bug :
    ((post_voice "u" "data" 2).VoiceFormat = 1 ∧ (1 : Nat) ≠ 2)
      ∧ (handleRecord [("rec.mp3", [104, 105])] "u" "rec.mp3" "tmp.silk").1
          = [Call.voice
              (post_voice "u" ("data:audio/mpeg;base64," ++ base64Str [104, 105]) 2)]
      ∧ (handleRecord [("rec.wav", [104])] "u" "rec.wav" "tmp.silk").1
          = [Call.text (post_text "u"
              "语音处理错误: [Errno 2] No such file or directory: tmp.silk" "")] := by
  refine ⟨⟨rfl, by decide⟩, by decide, by decide⟩

/-- C4: a Voice part whose extension is neither `.mp3` nor `.wav` produces
exactly one backend call — an error-reply text message carrying the
unsupported-format message — and no voice call; and on every exit path
(success, failure or exception) both the source recording and the conversion
artifact are absent from the file system afterwards. -/
theorem c4_unsupported_voice_is_error_reply_and_cleanup
    (fs : FS) (to_wxid record_path silk_path : String) :
    (pyLower (splitextExt record_path) ≠ ".mp3" →
      pyLower (splitextExt record_path) ≠ ".wav" →
        (handleRecord fs to_wxid record_path silk_path).1
            = [Call.text (post_text to_wxid
                ("语音处理错误: " ++ ("不支持的音频格式: "
                  ++ pyLower (splitextExt record_path))) "")]
          ∧ ∀ p : VoicePayload,
              Call.voice p ∉ (handleRecord fs to_wxid record_path silk_path).1)
      ∧ fsHas (handleRecord fs to_wxid record_path silk_path).2 record_path = false
      ∧ fsHas (handleRecord fs to_wxid record_path silk_path).2 silk_path = false := by
  refine ⟨fun h1 h2 => ?_, (cleanupTemp_removes fs record_path silk_path).1,
    (cleanupTemp_removes fs record_path silk_path).2⟩
  have hb : handleRecordBody fs to_wxid record_path silk_path
      = .error ("不支持的音频格式: " ++ pyLower (splitextExt record_path)) := by
    unfold handleRecordBody
    simp [h1, h2]
  constructor
  · simp [handleRecord, hb]
  · intro p
    simp [handleRecord, hb]

/-- Witness for C4 at a concrete `.ogg` voice part. -/
theorem c4_unsupported_voice_witness :
    (handleRecord [("rec.ogg", [1, 2, 3])] "u" "rec.ogg" "tmp.silk").1
        = [Call.text (post_text "u" "语音处理错误: 不支持的音频格式: .ogg" "")]
      ∧ fsHas (handleRecord [("rec.ogg", [1, 2, 3])] "u" "rec.ogg" "tmp.silk").2
          "rec.ogg" = false
      ∧ fsHas (handleRecord [("rec.ogg", [1, 2, 3])] "u" "rec.ogg" "tmp.silk").2
          "tmp.silk" = false := by
  have h := c4_unsupported_voice_is_error_reply_and_cleanup
    [("rec.ogg", [1, 2, 3])] "u" "rec.ogg" "tmp.silk"
  refine ⟨?_, h.2.1, h.2.2⟩
  have h1 := (h.1 (by decide) (by decide)).1
  rw [h1]
  decide

/-- C6 counterexample.  The claim states that for a GROUP frame whose push
string contains the "mentioned you" marker, the text is the raw-content
substring after the raw content's FIRST `":\n"` delimiter (everything after
the first occurrence).  On the code, `raw_content.split(":\n")[1]` is the
segment between the first and second occurrences: with raw content
`"alice_id:\nhello:\nworld"` the code yields text `"hello"`, not
`"hello:\nworld"`. -/
theorem c6_mention_text_counterexample :
    (convert_message "bot" 0
        { from_user := "room@chatroom", push_content := some "Alice在群聊中@了你",
          content := "alice_id:\nhello:\nworld", msg_id := "m1",
          create_time := some 5 }).map CanonicalMsg.text = some "hello"
      ∧ ("hello" : String) ≠ "hello:\nworld" := by
  exact ⟨by decide, by decide⟩

/-- C6 amended: for a GROUP frame whose push string contains the "mentioned
you" marker and whose raw content contains the `":\n"` delimiter, the
nickname is the stripped prefix of the push string before the marker (the
code strips it twice), the sender id is element 0 of the split of the raw
content on `":\n"` (the substring before the first occurrence), and the text
is element 1 of that split — the segment between the first and second
occurrences of the delimiter (equal to everything after the first occurrence
only when it occurs once). -/
theorem c6_mention_rule_amended (wxid : String) (now : Nat) (d : RawFrame)
    (pushS : String)
    (hg : pyin "@chatroom" d.from_user = true)
    (hp : d.push_content = some pushS)
    (hm : pyin marker pushS = true)
    (hd : pyin colonNl d.content = true) :
    ∃ t, (pysplit d.content colonNl)[1]? = some t
      ∧ convert_message wxid now d = some {
          kind := .group,
          self_id := wxid,
          message_id := d.msg_id,
          timestamp := d.create_time.getD now,
          sender_id := (pysplit d.content colonNl).headD "",
          nickname := pyStrip (pyStrip ((pysplit pushS marker).headD "")),
          text := t,
          message_str :=
            pyStrip (pyStrip ((pysplit pushS marker).headD "")) ++ ": " ++ t,
          session_id := d.from_user,
          group_id := some d.from_user } := by
  obtain ⟨t, ht⟩ := pysplit_get1_some d.content colonNl (by decide) hd
  have hgnt : groupNickText d.push_content d.content
      = .ok (pyStrip ((pysplit pushS marker).headD ""), t) := by
    simp [groupNickText, pyinOpt, hp, hm, ht]
  exact ⟨t, ht, by simp [convert_message, convert_message_try, hg, hgnt]⟩

/-- Witness for C6's amended theorem at Scenario A: push
`"Alice在群聊中@了你"`, raw content `"alice_id:\nhello"` gives nickname
`"Alice"`, sender id `"alice_id"`, text `"hello"`. -/
theorem c6_mention_rule_amended_witness :
    convert_message "bot" 7
        { from_user := "room@chatroom", push_content := some "Alice在群聊中@了你",
          content := "alice_id:\nhello", msg_id := "m1", create_time := some 5 }
      = some {
          kind := .group, self_id := "bot", message_id := "m1", timestamp := 5,
          sender_id := "alice_id", nickname := "Alice", text := "hello",
          message_str := "Alice: hello", session_id := "room@chatroom",
          group_id := some "room@chatroom" } := by
  obtain ⟨t, ht, hc⟩ := c6_mention_rule_amended "bot" 7
    { from_user := "room@chatroom", push_content := some "Alice在群聊中@了你",
      content := "alice_id:\nhello", msg_id := "m1", create_time := some 5 }
    "Alice在群聊中@了你" (by decide) rfl (by decide) (by decide)
  have hts : t = "hello" := by
    have he : (pysplit "alice_id:\nhello" colonNl)[1]? = some "hello" := by
      decide
    exact Option.some.inj (ht.symm.trans he)
  subst hts
  rw [hc]
  decide

/-- C7 counterexample.  The claim states the nickname of a DIRECT message is
the push string before its first colon.  On the code the prefix is also
stripped of surrounding whitespace: push `"Carol : yo"` yields nickname
`"Carol"`, not the claimed prefix `"Carol "`. -/
theorem c7_direct_nickname_counterexample :
    (convert_message "bot" 0
        { from_user := "carol_id", push_content := some "Carol : yo",
          content := "yo", msg_id := "m", create_time := some 1 }).map
        CanonicalMsg.nickname = some "Carol"
      ∧ ("Carol" : String) ≠ "Carol " := by
  exact ⟨by decide, by decide⟩

/-- C7 amended: for every DIRECT (non-group) frame, a sender equal to the
adapter's own wxid yields `none` (self-echo suppression); any other sender
yields a populated message whose sender id is the frame's sender, whose
nickname is the push string before its first colon with surrounding
whitespace stripped, and whose text is the raw content verbatim. -/
theorem c7_direct_amended (wxid : String) (now : Nat) (d : RawFrame)
    (hg : pyin "@chatroom" d.from_user = false) :
    (d.from_user = wxid → convert_message wxid now d = none)
      ∧ (d.from_user ≠ wxid → convert_message wxid now d = some {
          kind := .direct,
          self_id := wxid,
          message_id := d.msg_id,
          timestamp := d.create_time.getD now,
          sender_id := d.from_user,
          nickname := pyStrip ((pysplit (d.push_content.getD "") ":").headD ""),
          text := d.content,
          message_str :=
            pyStrip ((pysplit (d.push_content.getD "") ":").headD "")
              ++ ": " ++ d.content,
          session_id := d.from_user,
          group_id := none }) := by
  constructor
  · intro h
    subst h
    simp [convert_message, convert_message_try, hg]
  · intro h
    simp [convert_message, convert_message_try, hg, h]

/-- Witness for C7's amended theorem: Scenario C (sender `"carol_id"`
different from the adapter's `"bot"`) is populated, and the same frame sent
by the adapter itself is suppressed. -/
theorem c7_direct_amended_witness :
    convert_message "bot" 3
        { from_user := "carol_id", push_content := some "Carol: yo",
          content := "yo", msg_id := "m7", create_time := none }
      = some {
          kind := .direct, self_id := "bot", message_id := "m7", timestamp := 3,
          sender_id := "carol_id", nickname := "Carol", text := "yo",
          message_str := "Carol: yo", session_id := "carol_id",
          group_id := none }
      ∧ convert_message "bot" 3
        { from_user := "bot", push_content := some "Carol: yo",
          content := "yo", msg_id := "m7", create_time := none } = none := by
  constructor
  · have h := (c7_direct_amended "bot" 3
      { from_user := "carol_id", push_content := some "Carol: yo",
        content := "yo", msg_id := "m7", create_time := none }
      (by decide)).2 (by decide)
    rw [h]
    decide
  · exact (c7_direct_amended "bot" 3
      { from_user := "bot", push_content := some "Carol: yo",
        content := "yo", msg_id := "m7", create_time := none }
      (by decide)).1 rfl

/-- C8: normalization is total with respect to failure.  Any exception the
body raises is caught and mapped to `none` (never propagated), and for a
GROUP frame on which no extraction rule matches (no mention marker, no colon
in the push string, no `":\n"` in the raw content) the frame is dropped:
`convert_message` returns `none`. -/
theorem c8_normalization_never_propagates (wxid : String) (now : Nat)
    (d : RawFrame) :
    (∀ e, convert_message_try wxid now d = .error e →
        convert_message wxid now d = none)
      ∧ (pyin "@chatroom" d.from_user = true →
          pyinOpt marker d.push_content = false →
          pyinOpt ":" d.push_content = false →
          pyin colonNl d.content = false →
          convert_message wxid now d = none) := by
  constructor
  · intro e he
    simp [convert_message, he]
  · intro hg hm hc hr
    have hgnt : groupNickText d.push_content d.content
        = .error "NameError: name nickname is not defined" := by
      simp [groupNickText, hm, hc, hr]
    simp [convert_message, convert_message_try, hg, hgnt]

/-- Witness for C8 at a concrete GROUP frame on which no rule matches. -/
theorem c8_normalization_witness :
    convert_message "bot" 0
        { from_user := "g@chatroom", push_content := some "nocolon",
          content := "plain", msg_id := "m", create_time := none } = none := by
  exact (c8_normalization_never_propagates "bot" 0
    { from_user := "g@chatroom", push_content := some "nocolon",
      content := "plain", msg_id := "m", create_time := none }).2
    (by decide) (by decide) (by decide) (by decide)

/-- C10 (implicit): for a GROUP frame whose raw content contains no `":\n"`
delimiter at all, when extraction succeeds via the push-string colon rule the
sender id degenerates to the entire raw content string
(`raw_content.split(":\n")[0]` is the whole string). -/
theorem c10_sender_degenerates_to_content (wxid : String) (now : Nat)
    (d : RawFrame) (pushS : String)
    (hg : pyin "@chatroom" d.from_user = true)
    (hp : d.push_content = some pushS)
    (hm : pyin marker pushS = false)
    (hc : pyin ":" pushS = true)
    (hr : pyin colonNl d.content = false) :
    ∃ m, convert_message wxid now d = some m ∧ m.sender_id = d.content := by
  obtain ⟨a, b, hab⟩ := pysplit1_pair_of_pyin pushS ":" (by decide) hc
  have hgnt : groupNickText d.push_content d.content = .ok (pyStrip a, b) := by
    simp [groupNickText, pyinOpt, hp, hm, hc, hab]
  have hs : (pysplit d.content colonNl).headD "" = d.content := by
    rw [pysplit_of_not_pyin d.content colonNl hr]
    rfl
  have hconv : convert_message wxid now d = some {
      kind := .group,
      self_id := wxid,
      message_id := d.msg_id,
      timestamp := d.create_time.getD now,
      sender_id := (pysplit d.content colonNl).headD "",
      nickname := pyStrip (pyStrip a),
      text := b,
      message_str := pyStrip (pyStrip a) ++ ": " ++ b,
      session_id := d.from_user,
      group_id := some d.from_user } := by
    simp [convert_message, convert_message_try, hg, hgnt]
  exact ⟨_, hconv, by simpa using hs⟩

/-- Witness for C10: a group frame with push `"Bob: hi"` and raw content
`"just text"` (no `":\n"`) produces a message whose sender id is the whole
content `"just text"`. -/
theorem c10_sender_degenerates_witness :
    (convert_message "bot" 0
        { from_user := "g@chatroom", push_content := some "Bob: hi",
          content := "just text", msg_id := "m", create_time := none }).map
        CanonicalMsg.sender_id = some "just text" := by
  obtain ⟨m, hm', hs⟩ := c10_sender_degenerates_to_content "bot" 0
    { from_user := "g@chatroom", push_content := some "Bob: hi",
      content := "just text", msg_id := "m", create_time := none }
    "Bob: hi" (by decide) rfl (by decide) (by decide) (by decide)
  rw [hm']
  simp [hs]

end WxIpad
